import Mathlib

/-!
Shallow embedding of the CareOps booking/automation core
(src/backend/app/services and repositories) and proofs of the spec claims.

Conventions of the embedding:
* wall-clock instants and durations are integers (minutes) — Python
  `datetime`/`timedelta` arithmetic at minute granularity;
* Python strings appear either as Lean `String` (opaque payloads) or as
  `List Char` where character-level reasoning is needed (placeholder
  substitution);
* database rows are Lean structures, a table is a `List` of rows;
* an exception-raising Python function is a Lean function into `Except`.
-/

namespace CareOps

/-! ## Booking state machine (src/backend/app/services/booking_service.py) -/

/-- `BookingStatus` enum from app/models/booking.py. -/
inductive BookingStatus where
  | scheduled
  | confirmed
  | completed
  | no_show
  | cancelled
deriving DecidableEq, Repr

open BookingStatus in
/-- `VALID_STATUS_TRANSITIONS` dict, booking_service.py lines 611-626. -/
def VALID_STATUS_TRANSITIONS : BookingStatus → List BookingStatus
  | scheduled => [confirmed, completed, no_show, cancelled]
  | confirmed => [completed, no_show, cancelled]
  | completed => []
  | no_show => []
  | cancelled => []

/-- The fields of a `Booking` row that `update_booking_status` reads or
writes (app/models/booking.py / booking_service.py). -/
structure BookingRow where
  status : BookingStatus
  start_time : Int
  completed_at : Option Int := none
  completed_by_user_id : Option Nat := none
  staff_notes : Option String := none
deriving DecidableEq, Repr

/-- Errors raised by `update_booking_status` after the booking row was
found: the 400 `HTTPException`s of booking_service.py lines 663-675. -/
inductive UpdateStatusError where
  | invalidTransition (current requested : BookingStatus)
  | prematureCompletion
deriving DecidableEq, Repr

/-- `update_booking_status` (booking_service.py lines 629-691), from the
point where the booking row has been loaded.  `reqStatus` is
`data.status`, `notes` is `data.staff_notes`, `now` is `datetime.now()`.
Raising an `HTTPException` leaves the row unchanged (the transaction is
never committed), which the `Except.error` branch models. -/
def update_booking_status (b : BookingRow) (reqStatus : Option BookingStatus)
    (notes : Option String) (now : Int) (userId : Option Nat) :
    Except UpdateStatusError BookingRow := do
  let b₁ ← match reqStatus with
    | none => pure b
    | some req => do
        if req ∉ VALID_STATUS_TRANSITIONS b.status then
          throw (UpdateStatusError.invalidTransition b.status req)
        if req = BookingStatus.completed ∧ now < b.start_time then
          throw UpdateStatusError.prematureCompletion
        let b' := { b with status := req }
        if req = BookingStatus.completed then
          pure { b' with completed_at := some now,
                         completed_by_user_id := userId }
        else
          pure b'
  match notes with
  | none => pure b₁
  | some s => pure { b₁ with staff_notes := some s }

/-! ## Slot generator (booking_service.py, get_available_slots) -/

/-- The inner while-loop of `get_available_slots` (booking_service.py
lines 296-308) for one availability rule: starting at `t`, emit
`(t, t + dur)` while `t + dur ≤ endT`, then advance by `dur + buf`.
Times are minutes since midnight.  The Python loop terminates exactly
when `dur + buf > 0`, so the embedding carries that hypothesis. -/
def slotsFrom (t endT dur buf : Nat) (hpos : 0 < dur + buf) :
    List (Nat × Nat) :=
  if h : t + dur ≤ endT then
    (t, t + dur) :: slotsFrom (t + dur + buf) endT dur buf hpos
  else
    []
termination_by endT + dur + buf - t
decreasing_by omega

/-- An `AvailabilityRule` row as the slot generator reads it. -/
structure AvailRule where
  day_of_week : Nat
  start_time : Nat
  end_time : Nat
  is_active : Bool := true
deriving DecidableEq, Repr

/-- The slot-generation phase of `get_available_slots` (lines 294-308):
rules for the day are walked in order, concatenating each rule's slots. -/
def generate_all_slots (rules : List AvailRule) (dur buf : Nat)
    (hpos : 0 < dur + buf) : List (Nat × Nat) :=
  rules.flatMap (fun r => slotsFrom r.start_time r.end_time dur buf hpos)

/-! ## Conflict resolver and booking creation
(booking_service.py create_booking, booking_repository.py) -/

/-- The fields of a `Booking` row relevant to overlap detection and
creation (app/models/booking.py). -/
structure DBBooking where
  id : Nat
  workspace_id : Nat
  contact_id : Nat
  booking_type_id : Nat
  start_time : Int
  end_time : Int
  status : BookingStatus
  readiness_status : String := "pending_forms"
  inventory_reserved : Bool := false
deriving DecidableEq, Repr

/-- The fields of a `BookingType` row that `create_booking` reads. -/
structure BookingTypeRow where
  id : Nat
  workspace_id : Nat
  duration_minutes : Nat
  buffer_minutes : Nat
deriving DecidableEq, Repr

/-- `BookingRepository.get_overlapping_bookings`
(booking_repository.py lines 33-58): bookings of the booking type in
status scheduled/confirmed satisfying the half-open overlap predicate
`start_time < end ∧ end_time > start`, minus an optional excluded id. -/
def get_overlapping_bookings (bookings : List DBBooking) (btid : Nat)
    (startT endT : Int) (excludeId : Option Nat := none) : List DBBooking :=
  bookings.filter (fun b =>
    decide (b.booking_type_id = btid) &&
    (decide (b.status = BookingStatus.scheduled) ||
     decide (b.status = BookingStatus.confirmed)) &&
    decide (b.start_time < endT) &&
    decide (b.end_time > startT) &&
    (match excludeId with
     | some i => decide (b.id ≠ i)
     | none => true))

/-- Errors raised by `create_booking` (booking_service.py lines 354-570)
before the booking row is inserted.  `slotConflict` is the 409
`HTTPException` of lines 396-400. -/
inductive CreateBookingError where
  | bookingTypeNotFound
  | workspaceInactive
  | slotConflict
  | invalidContactData
deriving DecidableEq, Repr

/-- The HTTP status code attached to each `create_booking` error. -/
def createErrorStatusCode : CreateBookingError → Nat
  | CreateBookingError.bookingTypeNotFound => 404
  | CreateBookingError.workspaceInactive => 400
  | CreateBookingError.slotConflict => 409
  | CreateBookingError.invalidContactData => 400

/-- Python truthiness of an optional string (`None` and `""` are falsy). -/
def strTruthy : Option String → Bool
  | none => false
  | some s => !s.isEmpty

/-- The `contact_data` payload of a `create_booking` request. -/
structure ContactData where
  name : Option String
  email : Option String
  phone : Option String
deriving DecidableEq, Repr

/-- `create_booking` (booking_service.py lines 354-570), restricted to
the state it reads and writes up to the commit: the bookings table, the
booking-type table and the set of active workspaces.  The function runs
under the exclusive `lock_booking_type` row lock (line 374), so two
concurrent calls on the same booking type are modelled as two sequential
applications.  Contact find-or-create, conversation creation, form
sending and the post-commit steps (events, inventory, calendar) do not
touch the bookings table and are omitted; `newId`/`contactId` stand for
the generated primary keys.  On any `HTTPException` the transaction is
rolled back, so the `Except.error` branch returns no new table. -/
def create_booking (bts : List BookingTypeRow) (activeWorkspaces : List Nat)
    (bookings : List DBBooking) (newId contactId : Nat)
    (btid : Nat) (startTime : Int) (contact : ContactData) :
    Except CreateBookingError (List DBBooking × DBBooking) :=
  match bts.find? (fun t => t.id == btid) with
  | none => Except.error CreateBookingError.bookingTypeNotFound
  | some bt =>
    if bt.workspace_id ∉ activeWorkspaces then
      Except.error CreateBookingError.workspaceInactive
    else
      let booking_end_time := startTime + (bt.duration_minutes : Int)
      let overlapping := get_overlapping_bookings bookings btid startTime
        booking_end_time
      if overlapping ≠ [] then
        Except.error CreateBookingError.slotConflict
      else if ¬ strTruthy contact.name ∨
          (¬ strTruthy contact.email ∧ ¬ strTruthy contact.phone) then
        Except.error CreateBookingError.invalidContactData
      else
        let b : DBBooking :=
          { id := newId
            workspace_id := bt.workspace_id
            contact_id := contactId
            booking_type_id := btid
            start_time := startTime
            end_time := booking_end_time
            status := BookingStatus.scheduled
            readiness_status := "pending_forms"
            inventory_reserved := false }
        Except.ok (bookings ++ [b], b)

/-- Spec §8 overlap predicate between two accepted bookings of the same
booking type, used to state the no-overlap invariant. -/
def BookingsConflict (a b : DBBooking) : Prop :=
  a.booking_type_id = b.booking_type_id ∧
  (a.status = BookingStatus.scheduled ∨ a.status = BookingStatus.confirmed) ∧
  (b.status = BookingStatus.scheduled ∨ b.status = BookingStatus.confirmed) ∧
  a.start_time < b.end_time ∧ a.end_time > b.start_time

/-- The no-overlap invariant over the bookings table: no two distinct
rows (distinct primary keys) conflict. -/
def NoOverlap (bookings : List DBBooking) : Prop :=
  ∀ a ∈ bookings, ∀ b ∈ bookings, a.id ≠ b.id → ¬ BookingsConflict a b

/-! ## Python values and dictionaries
(shared by the automation engine and the event dispatcher) -/

/-- A JSON-ish Python value as the automation engine sees it.  Strings
are `List Char` so that placeholder substitution can be reasoned about
character by character. -/
inductive TValue where
  | vstr : List Char → TValue
  | vint : Int → TValue
  | vbool : Bool → TValue
  | vnone : TValue
deriving DecidableEq, Repr

/-- Python truthiness of a `TValue` (`""`, `0`, `False`, `None` falsy). -/
def truthy : TValue → Bool
  | TValue.vstr s => !s.isEmpty
  | TValue.vint n => decide (n ≠ 0)
  | TValue.vbool b => b
  | TValue.vnone => false

/-- Python truthiness of `dict.get(key)`: `None` for a missing key. -/
def truthyOpt : Option TValue → Bool
  | none => false
  | some v => truthy v

/-- A Python dict with string keys, as an association list in insertion
order (keys unique by construction of the operations below). -/
abbrev PyDict := List (String × TValue)

/-- `d.get(key)` — `none` models both a missing key and Python `None`
only where the call site treats them alike; key presence is preserved
because `vnone` is a value. -/
def dictGet (d : PyDict) (k : String) : Option TValue :=
  (d.find? (fun p => p.1 == k)).map (fun p => p.2)

/-- `d[key] = v` keeping insertion order (overwrite if present). -/
def dictSet (d : PyDict) (k : String) (v : TValue) : PyDict :=
  if d.any (fun p => p.1 == k) then
    d.map (fun p => if p.1 == k then (k, v) else p)
  else
    d ++ [(k, v)]

/-! ## Placeholder substitution
(automation_service.py `_replace_placeholders`, lines 234-248) -/

/-- An opening brace character, written by code point. -/
def braceL : Char := Char.ofNat 123

/-- A closing brace character, written by code point. -/
def braceR : Char := Char.ofNat 125

/-- The placeholder pattern for a keyword `w`: two opening braces, the
word, two closing braces. -/
def mkPH (w : String) : List Char :=
  braceL :: braceL :: (w.toList ++ [braceR, braceR])

/-- Whether `pat` occurs as a contiguous substring of `s`. -/
def occursIn (pat : List Char) : List Char → Bool
  | [] => pat.isPrefixOf []
  | c :: rest => pat.isPrefixOf (c :: rest) || occursIn pat rest

/-- Python `str.replace`: replace every non-overlapping occurrence of
`pat` in `s` by `rep`, scanning left to right.  (The call sites below
only use non-empty patterns; an empty pattern is passed through as a
no-op guard to keep the recursion well founded.) -/
def strReplace (s pat rep : List Char) : List Char :=
  match s with
  | [] => []
  | c :: rest =>
    if h : pat ≠ [] ∧ pat.isPrefixOf (c :: rest) then
      rep ++ strReplace ((c :: rest).drop pat.length) pat rep
    else
      c :: strReplace rest pat rep
termination_by s.length
decreasing_by
  · simp only [List.length_drop, List.length_cons]
    have := List.length_pos.mpr h.1
    omega
  · simp

/-- `str(value)` for the values a trigger-data field can hold. -/
def pyStr : TValue → List Char
  | TValue.vstr s => s
  | TValue.vint n => (toString n).toList
  | TValue.vbool b => if b then "True".toList else "False".toList
  | TValue.vnone => "None".toList

/-- `data.get(key, default)` where the call site will use the result as
a `str.replace` replacement: a present non-string value would make
Python `str.replace` raise `TypeError`, which `none` models. -/
def getStrField (d : PyDict) (k : String) (dft : List Char) :
    Option (List Char) :=
  match dictGet d k with
  | none => some dft
  | some (TValue.vstr s) => some s
  | some TValue.vnone => none
  | some (TValue.vint _) => none
  | some (TValue.vbool _) => none

/-- The value bound to the `{{quantity}}` placeholder:
`str(data.get("quantity", ""))`. -/
def quantityStr (d : PyDict) : List Char :=
  match dictGet d "quantity" with
  | none => []
  | some v => pyStr v

/-- The `replacements` dict of `_replace_placeholders` (lines 236-245),
in insertion order.  `{{quantity}}` goes through `str(...)`, the other
seven are used raw (hence `getStrField`). -/
def replacementsList (d : PyDict) : Option (List (List Char × List Char)) :=
  match getStrField d "contact_name" "Customer".toList,
        getStrField d "contact_email" [],
        getStrField d "contact_phone" [],
        getStrField d "service_name" [],
        getStrField d "booking_date" [],
        getStrField d "booking_time" [],
        getStrField d "item_name" [] with
  | some nameV, some emailV, some phoneV, some serviceV, some dateV,
    some timeV, some itemV =>
    some [(mkPH "name", nameV), (mkPH "email", emailV),
          (mkPH "phone", phoneV), (mkPH "service", serviceV),
          (mkPH "date", dateV), (mkPH "time", timeV),
          (mkPH "item", itemV), (mkPH "quantity", quantityStr d)]
  | _, _, _, _, _, _, _ => none

/-- `_replace_placeholders(text, data)` (lines 234-248): fold
`str.replace` over the eight placeholder/value pairs in order.  `none`
models the `TypeError` Python raises when a used field holds a
non-string value. -/
def replacePlaceholders (text : List Char) (d : PyDict) :
    Option (List Char) :=
  (replacementsList d).map
    (fun l => l.foldl (fun acc kv => strReplace acc kv.1 kv.2) text)

/-! ## Automation rule engine
(automation_service.py `trigger_automation`, lines 101-220) -/

/-- An `AutomationRule` row (app/models/automation.py) as
`trigger_automation` reads it.  `action_config` is a JSON dict read
with `.get("subject", "")` / `.get("message", "")` (lines 165-166);
the two string fields below are those lookups with the defaults applied
(rule configs are created string-typed through the admin schema).
`conditions` is `None` or a dict; Python truthiness collapses `None`
and `{}` to the empty list. -/
structure ARule where
  id : Nat
  workspace_id : Nat
  event_type : String
  is_active : Bool
  priority : Int
  action_type : String
  subject : List Char
  message : List Char
  conditions : PyDict
  stop_on_reply : Bool := false
deriving DecidableEq, Repr

/-- An `AutomationLog` row (app/models/automation.py) as
`trigger_automation` writes it. -/
structure ALog where
  workspace_id : Nat
  rule_id : Option Nat
  event_type : String
  trigger_data : PyDict
  action_type : String
  status : String
  recipient : Option TValue := none
  subject : Option (List Char) := none
  message : Option (List Char) := none
  error_message : Option (List Char) := none
  stopped : Bool := false
deriving DecidableEq, Repr

/-- One invocation of `send_communication` as seen from
`trigger_automation` (channel, recipient value, subject, message). -/
structure SendCall where
  channel : String
  recipient : TValue
  subject : Option (List Char)
  message : List Char
deriving DecidableEq, Repr

/-- The environment `trigger_automation` runs against: the
`automation_rules` table, the `automation_paused_contacts` table
(pairs of workspace id and stored contact id) and the outcome of each
`send_communication` call (`none` = returned, `some e` = raised
`RuntimeError(e)`). -/
structure AutoEnv where
  rules : List ARule
  paused : List (Nat × TValue)
  send : SendCall → Option (List Char)

/-- Stable insertion of a rule after all rules of priority `≤ r`:
one step of the `ORDER BY priority ASC` read (ties keep table order). -/
def insertByPriority (r : ARule) : List ARule → List ARule
  | [] => [r]
  | x :: xs =>
    if x.priority ≤ r.priority then x :: insertByPriority r xs
    else r :: x :: xs

/-- Stable sort by ascending priority. -/
def sortByPriority (l : List ARule) : List ARule :=
  l.foldl (fun acc r => insertByPriority r acc) []

/-- The rule query of `trigger_automation` (lines 113-122): active rules
of the workspace and event type, ordered by ascending priority. -/
def matchingRules (env : AutoEnv) (ws : Nat) (et : String) : List ARule :=
  sortByPriority (env.rules.filter (fun r =>
    decide (r.workspace_id = ws) && decide (r.event_type = et) && r.is_active))

/-- `_check_conditions(conditions, trigger_data)` (lines 223-231): every
condition key must be present in the trigger data with an equal value. -/
def checkConditions (conditions : PyDict) (td : PyDict) : Bool :=
  conditions.all (fun kv =>
    match dictGet td kv.1 with
    | none => false
    | some v => decide (v = kv.2))

/-- Python `a or b` on two `dict.get` results (first operand if truthy,
else second): the `recipient = contact_email or contact_phone` of
line 164. -/
def pyOr (a b : Option TValue) : Option TValue :=
  match a with
  | some v => if truthy v then some v else b
  | none => b

/-- The `is_paused` check of `trigger_automation` (lines 129-138):
a truthy `contact_id` that has a row in `automation_paused_contacts`
for this workspace. -/
def isPausedFor (env : AutoEnv) (ws : Nat) (td : PyDict) : Bool :=
  match dictGet td "contact_id" with
  | none => false
  | some v =>
    truthy v && env.paused.any (fun p => decide (p.1 = ws) && decide (p.2 = v))

/-- The fixed message of a skipped (paused) automation log, line 151. -/
def pausedMessage : List Char :=
  "Automation paused for contact (staff reply)".toList

/-- The per-rule loop of `trigger_automation` (lines 140-215), returning
the `AutomationLog` rows added and the `send_communication` calls made.
Branches, in source order:
* paused: one `skipped` log for the current rule, then `break`;
* non-empty conditions that do not all match: `continue`, no log;
* otherwise the `try` block: resolve recipient, substitute placeholders
  (a `TypeError` there is caught by the `except` and becomes a `failed`
  log), send email if the rule is `send_email` and `contact_email` is
  truthy — a raised `RuntimeError` becomes a `failed` log — else send
  SMS if the rule is `send_sms` and `contact_phone` is truthy: that
  call site omits the required `subject` argument of
  `send_communication`, so it raises `TypeError` before any delivery
  and becomes a `failed` log; in every non-raising path a `success`
  log is appended. -/
def runRules (env : AutoEnv) (ws : Nat) (et : String) (td : PyDict)
    (paused : Bool) : List ARule → List ALog × List SendCall
  | [] => ([], [])
  | r :: rest =>
    if paused then
      ([{ workspace_id := ws, rule_id := some r.id, event_type := et,
          trigger_data := td, action_type := r.action_type,
          status := "skipped", stopped := true,
          message := some pausedMessage }], [])
    else if r.conditions ≠ [] ∧ ¬ checkConditions r.conditions td then
      runRules env ws et td paused rest
    else
      let contact_email := dictGet td "contact_email"
      let contact_phone := dictGet td "contact_phone"
      let recipient := pyOr contact_email contact_phone
      let (logHere, sendsHere) :=
        match replacePlaceholders r.message td,
              replacePlaceholders r.subject td with
        | some msg, some subj =>
          if r.action_type = "send_email" ∧ truthyOpt contact_email then
            let call : SendCall :=
              { channel := "email",
                recipient := (contact_email.getD TValue.vnone),
                subject := some subj, message := msg }
            match env.send call with
            | none =>
              ({ workspace_id := ws, rule_id := some r.id, event_type := et,
                 trigger_data := td, action_type := r.action_type,
                 status := "success", recipient := recipient,
                 subject := some subj, message := some msg }, [call])
            | some err =>
              ({ workspace_id := ws, rule_id := some r.id, event_type := et,
                 trigger_data := td, action_type := r.action_type,
                 status := "failed", error_message := some err }, [call])
          else if r.action_type = "send_sms" ∧ truthyOpt contact_phone then
            ({ workspace_id := ws, rule_id := some r.id, event_type := et,
               trigger_data := td, action_type := r.action_type,
               status := "failed",
               error_message := some "TypeError".toList }, [])
          else
            ({ workspace_id := ws, rule_id := some r.id, event_type := et,
               trigger_data := td, action_type := r.action_type,
               status := "success", recipient := recipient,
               subject := some subj, message := some msg }, [])
        | _, _ =>
          ({ workspace_id := ws, rule_id := some r.id, event_type := et,
             trigger_data := td, action_type := r.action_type,
             status := "failed",
             error_message := some "TypeError".toList }, [])
      let (moreLogs, moreSends) := runRules env ws et td paused rest
      (logHere :: moreLogs, sendsHere ++ moreSends)

/-- `trigger_automation(db, workspace_id, event_type, trigger_data)`
(lines 101-220): query the matching rules, compute the pause flag, run
the per-rule loop.  Returns the logs written and the sends attempted. -/
def triggerAutomation (env : AutoEnv) (ws : Nat) (et : String)
    (td : PyDict) : List ALog × List SendCall :=
  runRules env ws et td (isPausedFor env ws td) (matchingRules env ws et)

/-! ## Event log and dispatcher
(event_service.py `dispatch_event`, lines 77-101) -/

/-- `EventStatus` enum from app/models/event_log.py. -/
inductive EStatus where
  | pending
  | processed
  | failed
deriving DecidableEq, Repr

/-- An `EventLog` row as `dispatch_event` reads and writes it. -/
structure EventEntry where
  event_type : String
  workspace_id : Nat
  entity_type : Option String
  entity_id : Option Nat
  event_data : PyDict
  status : EStatus
  error_message : Option String := none
  processed_at : Option Int := none
deriving DecidableEq, Repr

/-- The observable behaviour of one registered handler on this event:
`ok` if it returns, `error msg` if it raises.  Handlers in
event_handlers.py are logging-only and do not change the rows the
dispatcher later reads. -/
abbrev HandlerOutcome := Except String Unit

/-- One iteration of the handler loop (lines 89-99): success stamps
`status = processed` and `processed_at`; an exception is caught and
stamps `status = failed` and `error_message`. -/
def applyHandler (now : Int) (e : EventEntry) (h : HandlerOutcome) :
    EventEntry :=
  match h with
  | Except.ok _ =>
    { e with status := EStatus.processed, processed_at := some now }
  | Except.error m =>
    { e with status := EStatus.failed, error_message := some m }

/-- The handler loop of `dispatch_event`: outcomes are folded in
registration order. -/
def dispatchHandlers (now : Int) (e : EventEntry)
    (hs : List HandlerOutcome) : EventEntry :=
  hs.foldl (applyHandler now) e

/-- `str(x)` for an optional id (Python prints `None` for `None`). -/
def pyStrOfOptNat : Option Nat → List Char
  | none => "None".toList
  | some n => (toString n).toList

/-- The `trigger_data` dict built by `_trigger_automation_rules`
(event_service.py lines 244-250): `contact_id` (a string only when the
entity is a contact, else `None`), `event_type`, then the event payload
merged on top (later keys overwrite). -/
def buildTriggerData (e : EventEntry) : PyDict :=
  let base : PyDict :=
    [("contact_id",
      if e.entity_type = some "contact" then
        TValue.vstr (pyStrOfOptNat e.entity_id)
      else TValue.vnone),
     ("event_type", TValue.vstr e.event_type.toList)]
  e.event_data.foldl (fun acc kv => dictSet acc kv.1 kv.2) base

/-- `dispatch_event(db, event)` (lines 77-101): run every registered
handler in order (each failure caught inline), then always call
`trigger_automation` through `_trigger_automation_rules`.  Returns the
updated entry together with the automation logs and sends. -/
def dispatchEvent (env : AutoEnv) (now : Int) (hs : List HandlerOutcome)
    (e : EventEntry) : EventEntry × (List ALog × List SendCall) :=
  let e' := dispatchHandlers now e hs
  (e', triggerAutomation env e'.workspace_id e'.event_type
    (buildTriggerData e'))

/-! ## Delivery retrier
(communication_service.py, lines 18-180) -/

/-- `MAX_RETRIES` (communication_service.py line 18). -/
def MAX_RETRIES : Nat := 3

/-- `RETRY_DELAYS` (communication_service.py line 19). -/
def RETRY_DELAYS : List Nat := [1, 2, 4]

/-- What one iteration of the `try` block of `_send_email_with_retry`
does, as decided by the environment (Gmail/provider state):
* `sent` — a `return ("sent", None)` path was reached;
* `gmailSoftFail` — Gmail was active but returned no message id:
  `last_error` is set to `"Failed to send via Gmail"` and the loop
  continues without raising (hence without sleeping);
* `raised msg` — an exception: `last_error = msg`, and the loop sleeps
  before the next attempt (if any). -/
inductive AttemptResult where
  | sent
  | gmailSoftFail
  | raised (msg : String)
deriving DecidableEq, Repr

/-- The outcome of a whole retry loop: the returned status string and
error, plus the `asyncio.sleep` durations performed and the number of
attempts executed. -/
structure RetryOutcome where
  status : String
  last_error : Option String
  delays : List Nat
  attempts : Nat
deriving DecidableEq, Repr

/-- The `for attempt in range(MAX_RETRIES)` loop of
`_send_email_with_retry` (lines 32-87) over the remaining attempt
indices: success returns immediately; a soft failure records the error
and retries with no sleep; an exception records the error and sleeps
`RETRY_DELAYS[attempt]` unless this was the last attempt.  Falling off
the loop returns `("failed", last_error)`. -/
def runAttempts (outcomes : Nat → AttemptResult) :
    List Nat → Option String → RetryOutcome
  | [], lastErr => ⟨"failed", lastErr, [], 0⟩
  | i :: rest, lastErr =>
    match outcomes i with
    | AttemptResult.sent => ⟨"sent", none, [], 1⟩
    | AttemptResult.gmailSoftFail =>
      let o := runAttempts outcomes rest (some "Failed to send via Gmail")
      ⟨o.status, o.last_error, o.delays, o.attempts + 1⟩
    | AttemptResult.raised m =>
      let o := runAttempts outcomes rest (some m)
      if i < MAX_RETRIES - 1 then
        ⟨o.status, o.last_error, RETRY_DELAYS.getD i 0 :: o.delays,
         o.attempts + 1⟩
      else
        ⟨o.status, o.last_error, o.delays, o.attempts + 1⟩

/-- `_send_email_with_retry` (lines 22-87), with each attempt's
behaviour supplied by `outcomes`. -/
def sendEmailWithRetry (outcomes : Nat → AttemptResult) : RetryOutcome :=
  runAttempts outcomes (List.range MAX_RETRIES) none

/-- `_send_sms_with_retry` (lines 90-132): same loop, but an attempt
either returns `("sent", None)` or raises (`none` / `some msg`). -/
def sendSmsWithRetry (outcomes : Nat → Option String) : RetryOutcome :=
  runAttempts
    (fun i => match outcomes i with
      | none => AttemptResult.sent
      | some m => AttemptResult.raised m)
    (List.range MAX_RETRIES) none

/-- A `CommunicationLog` row (app/models/communication.py) as
`send_communication` writes it. -/
structure CommLog where
  workspace_id : Nat
  channel : String
  recipient : String
  subject : Option String
  message : String
  sent_by_staff : Bool
  automated : Bool
  status : String
  error_message : Option String
deriving DecidableEq, Repr

/-- `send_communication` (lines 135-180): run the channel's retry loop
(an unsupported channel fails outright), write exactly one
`CommunicationLog` row with the final outcome, then raise
`RuntimeError(error_message)` if the final status is `"failed"`. -/
def sendCommunication (emailOutcomes : Nat → AttemptResult)
    (smsOutcomes : Nat → Option String) (ws : Nat) (channel : String)
    (recipient : String) (subject : Option String) (message : String)
    (sent_by_staff : Bool := false) (automated : Bool := false) :
    Except (Option String) String × List CommLog :=
  let o :=
    if channel = "email" then sendEmailWithRetry emailOutcomes
    else if channel = "sms" then sendSmsWithRetry smsOutcomes
    else ⟨"failed", some "Unsupported communication channel.", [], 0⟩
  let log : CommLog :=
    { workspace_id := ws, channel := channel, recipient := recipient,
      subject := subject, message := message,
      sent_by_staff := sent_by_staff, automated := automated,
      status := o.status, error_message := o.last_error }
  if o.status = "failed" then
    (Except.error o.last_error, [log])
  else
    (Except.ok o.status, [log])


/-! ## Concrete fixtures used by witnesses and counterexamples -/

/-- A minimal active email rule with empty templates. -/
def ruleEmail (rid ws : Nat) (et : String) : ARule :=
  { id := rid, workspace_id := ws, event_type := et, is_active := true,
    priority := 0, action_type := "send_email", subject := [],
    message := [], conditions := [] }

/-- An environment with one active email rule for `booking.created` in
workspace 1, a pause entry for contact `c1`, and an always-succeeding
send capability. -/
def envPausedOneRule : AutoEnv :=
  { rules := [ruleEmail 5 1 "booking.created"],
    paused := [(1, TValue.vstr "c1".toList)],
    send := fun _ => none }

/-- Same environment, but the single rule listens to a different event
type, so nothing matches `booking.created`. -/
def envPausedNoMatch : AutoEnv :=
  { rules := [ruleEmail 5 1 "contact.created"],
    paused := [(1, TValue.vstr "c1".toList)],
    send := fun _ => none }

/-- An environment with one active email rule and no paused contacts. -/
def envOneRule : AutoEnv :=
  { rules := [ruleEmail 5 1 "booking.created"],
    paused := [],
    send := fun _ => none }

/-- An environment with no rules at all. -/
def envNoRules : AutoEnv := { rules := [], paused := [], send := fun _ => none }

/-- A pending `booking.created` event entry whose payload carries a
truthy contact email. -/
def entryBooking : EventEntry :=
  { event_type := "booking.created", workspace_id := 1,
    entity_type := some "booking", entity_id := some 42,
    event_data := [("contact_email", TValue.vstr "a@x".toList)],
    status := EStatus.pending }

/-- The status an entry is stamped with by one handler outcome
(event_service.py lines 89-98). -/
def handlerStatus : HandlerOutcome → EStatus
  | Except.ok _ => EStatus.processed
  | Except.error _ => EStatus.failed

/-- The error surfaced by one failed email attempt. -/
def attemptError : AttemptResult → Option String
  | AttemptResult.sent => none
  | AttemptResult.gmailSoftFail => some "Failed to send via Gmail"
  | AttemptResult.raised m => some m

/-- A provider that raises on the first two attempts and delivers on
the third. -/
def twoFailsThenSent : Nat → AttemptResult :=
  fun i => if i < 2 then AttemptResult.raised "boom" else AttemptResult.sent

end CareOps

namespace CareOps

/-! ## Theorems -/

theorem slotsFrom_mem (t endT dur buf : Nat) (hpos : 0 < dur + buf)
    (s : Nat × Nat) :
    s ∈ slotsFrom t endT dur buf hpos ↔
      ∃ i : Nat, s = (t + i * (dur + buf), t + i * (dur + buf) + dur) ∧
        t + i * (dur + buf) + dur ≤ endT := by
  generalize hm : endT + dur + buf - t = m
  induction m using Nat.strong_induction_on generalizing t with
  | _ m ih =>
    rw [slotsFrom]
    by_cases h : t + dur ≤ endT
    · simp only [dif_pos h, List.mem_cons]
      have hrec := ih (endT + dur + buf - (t + dur + buf))
        (by omega) (t + dur + buf) rfl
      constructor
      · intro hmem
        rcases hmem with hhead | htail
        · exact ⟨0, by simpa using hhead, by simpa using h⟩
        · rcases hrec.mp htail with ⟨i, hs, hb⟩
          have hx : (i + 1) * (dur + buf) = i * (dur + buf) + (dur + buf) := by
            ring
          refine ⟨i + 1, ?_, by omega⟩
          rw [hs]
          simp only [Prod.mk.injEq]
          omega
      · rintro ⟨i, hs, hb⟩
        cases i with
        | zero =>
          left
          simpa using hs
        | succ j =>
          right
          have hx : (j + 1) * (dur + buf) = j * (dur + buf) + (dur + buf) := by
            ring
          refine hrec.mpr ⟨j, ?_, by omega⟩
          rw [hs]
          simp only [Prod.mk.injEq]
          omega
    · simp only [dif_neg h, List.not_mem_nil, false_iff]
      rintro ⟨i, hs, hb⟩
      omega

/-- C5: for every (current, requested) pair not listed in
`VALID_STATUS_TRANSITIONS` — which includes every request out of the
terminal states completed, no_show and cancelled, whose transition
lists are empty — `update_booking_status` fails with an
`InvalidTransition` error carrying the current and the requested
status, and returns no updated booking row (the status is unchanged). -/
theorem C5_transition_table_closure (b : BookingRow) (req : BookingStatus)
    (notes : Option String) (now : Int) (userId : Option Nat)
    (h : req ∉ VALID_STATUS_TRANSITIONS b.status) :
    update_booking_status b (some req) notes now userId =
      Except.error (UpdateStatusError.invalidTransition b.status req) := by
  simp only [update_booking_status, h, not_false_eq_true, if_true, ite_not]
  rfl

/-- Witness for C5 at a terminal state: requesting `confirmed` from
`completed` is rejected as an invalid transition. -/
theorem C5_transition_table_closure_witness :
    update_booking_status
        { status := BookingStatus.completed, start_time := 0 }
        (some BookingStatus.confirmed) none 0 none =
      Except.error (UpdateStatusError.invalidTransition
        BookingStatus.completed BookingStatus.confirmed) :=
  C5_transition_table_closure
    { status := BookingStatus.completed, start_time := 0 }
    BookingStatus.confirmed none 0 none (by decide)

/-- C6: for one availability rule, the slot generator emits exactly the
slots `[t_i, t_i + duration)` for `t_i = start + i * (duration +
buffer)` with `t_i + duration ≤ end` (so every emitted slot has length
exactly `duration`), and for duration 30, buffer 15 and a rule
09:00-10:00 it yields exactly the single slot [09:00, 09:30). -/
theorem C6_slot_generation_walk :
    (∀ (t endT dur buf : Nat) (hpos : 0 < dur + buf) (s : Nat × Nat),
      s ∈ slotsFrom t endT dur buf hpos ↔
        ∃ i : Nat, s = (t + i * (dur + buf), t + i * (dur + buf) + dur) ∧
          t + i * (dur + buf) + dur ≤ endT) ∧
    (∀ (t endT dur buf : Nat) (hpos : 0 < dur + buf) (s : Nat × Nat),
      s ∈ slotsFrom t endT dur buf hpos → s.2 = s.1 + dur) ∧
    slotsFrom 540 600 30 15 (by norm_num) = [(540, 570)] := by
  refine ⟨slotsFrom_mem, ?_, by simp [slotsFrom]⟩
  intro t endT dur buf hpos s hs
  rcases (slotsFrom_mem t endT dur buf hpos s).mp hs with ⟨i, rfl, hb⟩
  rfl

/-- Witness for C6: the 09:00 slot is a member, and the generated list
for the 09:00-10:00 scenario is exactly that one slot. -/
theorem C6_slot_generation_walk_witness :
    ((540, 570) ∈ slotsFrom 540 600 30 15 (by norm_num) ∧
      (570 : Nat) = 540 + 30) ∧
    slotsFrom 540 600 30 15 (by norm_num) = [(540, 570)] :=
  ⟨⟨(C6_slot_generation_walk.1 540 600 30 15 (by norm_num)
        (540, 570)).mpr ⟨0, by norm_num, by norm_num⟩,
    C6_slot_generation_walk.2.1 540 600 30 15 (by norm_num) (540, 570)
      ((C6_slot_generation_walk.1 540 600 30 15 (by norm_num)
        (540, 570)).mpr ⟨0, by norm_num, by norm_num⟩)⟩,
   C6_slot_generation_walk.2.2⟩

theorem mem_get_overlapping (bookings : List DBBooking) (btid : Nat)
    (s e : Int) (a : DBBooking) :
    a ∈ get_overlapping_bookings bookings btid s e ↔
      a ∈ bookings ∧ a.booking_type_id = btid ∧
        (a.status = BookingStatus.scheduled ∨
          a.status = BookingStatus.confirmed) ∧
        a.start_time < e ∧ a.end_time > s := by
  simp [get_overlapping_bookings, List.mem_filter, and_assoc]

theorem get_overlapping_eq_nil (bookings : List DBBooking) (btid : Nat)
    (s e : Int) :
    get_overlapping_bookings bookings btid s e = [] ↔
      ∀ a ∈ bookings, ¬ (a.booking_type_id = btid ∧
        (a.status = BookingStatus.scheduled ∨
          a.status = BookingStatus.confirmed) ∧
        a.start_time < e ∧ a.end_time > s) := by
  rw [List.eq_nil_iff_forall_not_mem]
  constructor
  · intro h a ha hpred
    exact h a ((mem_get_overlapping bookings btid s e a).mpr ⟨ha, hpred⟩)
  · intro h a hmem
    rcases (mem_get_overlapping bookings btid s e a).mp hmem with ⟨ha, hpred⟩
    exact h a ha hpred

theorem create_booking_slot_conflict (bts : List BookingTypeRow)
    (aws : List Nat) (bookings : List DBBooking)
    (newId contactId btid : Nat) (startTime : Int) (contact : ContactData)
    (bt : BookingTypeRow)
    (hf : bts.find? (fun t => t.id == btid) = some bt)
    (hw : bt.workspace_id ∈ aws)
    (hex : ∃ w ∈ bookings, w.booking_type_id = btid ∧
      (w.status = BookingStatus.scheduled ∨
        w.status = BookingStatus.confirmed) ∧
      w.start_time < startTime + (bt.duration_minutes : Int) ∧
      w.end_time > startTime) :
    create_booking bts aws bookings newId contactId btid startTime contact =
      Except.error CreateBookingError.slotConflict := by
  obtain ⟨w, hwmem, h1, h2, h3, h4⟩ := hex
  have hne : get_overlapping_bookings bookings btid startTime
      (startTime + (bt.duration_minutes : Int)) ≠ [] := by
    intro h0
    exact (get_overlapping_eq_nil bookings btid startTime
      (startTime + (bt.duration_minutes : Int))).mp h0 w hwmem ⟨h1, h2, h3, h4⟩
  unfold create_booking
  rw [hf]
  simp only [hw, not_true_eq_false, if_false, hne, ne_eq,
    not_false_eq_true, if_true]

theorem create_booking_ok_inv (bts : List BookingTypeRow)
    (aws : List Nat) (bookings : List DBBooking)
    (newId contactId btid : Nat) (startTime : Int) (contact : ContactData)
    (bookings' : List DBBooking) (b : DBBooking)
    (h : create_booking bts aws bookings newId contactId btid startTime
      contact = Except.ok (bookings', b)) :
    ∃ bt, bts.find? (fun t => t.id == btid) = some bt ∧
      bt.workspace_id ∈ aws ∧
      get_overlapping_bookings bookings btid startTime
        (startTime + (bt.duration_minutes : Int)) = [] ∧
      b = { id := newId, workspace_id := bt.workspace_id,
            contact_id := contactId, booking_type_id := btid,
            start_time := startTime,
            end_time := startTime + (bt.duration_minutes : Int),
            status := BookingStatus.scheduled } ∧
      bookings' = bookings ++ [b] := by
  unfold create_booking at h
  split at h
  · exact Except.noConfusion h
  · rename_i bt hfeq
    split at h
    · exact Except.noConfusion h
    · rename_i hw
      rw [not_not] at hw
      split at h
      · dsimp only at h
        split at h <;> exact Except.noConfusion h
      · dsimp only at h
        split at h
        · exact Except.noConfusion h
        · rename_i hov
          rw [not_not] at hov
          simp only [Except.ok.injEq, Prod.mk.injEq] at h
          obtain ⟨h1, h2⟩ := h
          exact ⟨bt, hfeq, hw, hov, h2.symm, by rw [← h1, h2]⟩

/-- C1: (a) whenever an accepted (scheduled/confirmed) booking of the
same booking type overlaps the requested half-open slot,
`create_booking` fails with `SlotConflict` (HTTP 409) and inserts no
booking; (b) under the booking-type lock it preserves the no-overlap
invariant among accepted bookings; (c) of two serialized calls for the
identical slot, the first succeeding forces the second into
`SlotConflict`. -/
theorem C1_no_double_booking :
    (∀ (bts : List BookingTypeRow) (aws : List Nat)
        (bookings : List DBBooking) (newId contactId btid : Nat)
        (startTime : Int) (contact : ContactData) (bt : BookingTypeRow),
      bts.find? (fun t => t.id == btid) = some bt →
      bt.workspace_id ∈ aws →
      (∃ w ∈ bookings, w.booking_type_id = btid ∧
        (w.status = BookingStatus.scheduled ∨
          w.status = BookingStatus.confirmed) ∧
        w.start_time < startTime + (bt.duration_minutes : Int) ∧
        w.end_time > startTime) →
      create_booking bts aws bookings newId contactId btid startTime
          contact = Except.error CreateBookingError.slotConflict ∧
        createErrorStatusCode CreateBookingError.slotConflict = 409) ∧
    (∀ (bts : List BookingTypeRow) (aws : List Nat)
        (bookings : List DBBooking) (newId contactId btid : Nat)
        (startTime : Int) (contact : ContactData)
        (bookings' : List DBBooking) (b : DBBooking),
      NoOverlap bookings →
      (∀ x ∈ bookings, x.id ≠ newId) →
      create_booking bts aws bookings newId contactId btid startTime
          contact = Except.ok (bookings', b) →
      NoOverlap bookings') ∧
    (∀ (bts : List BookingTypeRow) (aws : List Nat)
        (bookings : List DBBooking) (newId₁ newId₂ contactId₁
          contactId₂ btid : Nat) (startTime : Int) (c₁ c₂ : ContactData)
        (bookings' : List DBBooking) (b : DBBooking)
        (bt : BookingTypeRow),
      bts.find? (fun t => t.id == btid) = some bt →
      0 < bt.duration_minutes →
      create_booking bts aws bookings newId₁ contactId₁ btid startTime
          c₁ = Except.ok (bookings', b) →
      create_booking bts aws bookings' newId₂ contactId₂ btid startTime
          c₂ = Except.error CreateBookingError.slotConflict) := by
  refine ⟨?_, ?_, ?_⟩
  · intro bts aws bookings newId contactId btid startTime contact bt
      hf hw hex
    exact ⟨create_booking_slot_conflict bts aws bookings newId contactId
      btid startTime contact bt hf hw hex, rfl⟩
  · intro bts aws bookings newId contactId btid startTime contact
      bookings' b hinv hfresh h
    obtain ⟨bt, hf, hw, hov, hb, hbl⟩ :=
      create_booking_ok_inv bts aws bookings newId contactId btid
        startTime contact bookings' b h
    have hclear := (get_overlapping_eq_nil bookings btid startTime
      (startTime + (bt.duration_minutes : Int))).mp hov
    subst hbl
    intro x hx y hy hne hc
    rcases List.mem_append.mp hx with hxo | hxn
    · rcases List.mem_append.mp hy with hyo | hyn
      · exact hinv x hxo y hyo hne hc
      · -- y is the new booking, x an old one
        have hyb : y = b := by simpa using hyn
        rcases hc with ⟨hbt, hxs, _, ho1, ho2⟩
        refine hclear x hxo ⟨?_, hxs, ?_, ?_⟩
        · rw [hbt, hyb, hb]
        · rw [hyb, hb] at ho1
          simpa using ho1
        · rw [hyb, hb] at ho2
          simpa using ho2
    · have hxb : x = b := by simpa using hxn
      rcases List.mem_append.mp hy with hyo | hyn
      · -- x is the new booking, y an old one
        rcases hc with ⟨hbt, _, hys, ho1, ho2⟩
        refine hclear y hyo ⟨?_, hys, ?_, ?_⟩
        · rw [← hbt, hxb, hb]
        · rw [hxb, hb] at ho2
          simpa using ho2
        · rw [hxb, hb] at ho1
          simpa using ho1
      · -- both are the new booking: same id
        have hyb : y = b := by simpa using hyn
        rw [hxb, hyb] at hne
        exact hne rfl
  · intro bts aws bookings newId₁ newId₂ contactId₁ contactId₂ btid
      startTime c₁ c₂ bookings' b bt hf hdur h1
    obtain ⟨bt', hf', hw, _, hb, hbl⟩ :=
      create_booking_ok_inv bts aws bookings newId₁ contactId₁ btid
        startTime c₁ bookings' b h1
    have hbteq : bt' = bt := by
      rw [hf] at hf'
      exact (Option.some.inj hf').symm
    rw [hbteq] at hw hb
    refine create_booking_slot_conflict bts aws bookings' newId₂
      contactId₂ btid startTime c₂ bt hf hw ⟨b, ?_, ?_, ?_, ?_, ?_⟩
    · rw [hbl]
      simp
    · rw [hb]
    · rw [hb]
      left
      rfl
    · rw [hb]
      simp
      omega
    · rw [hb]
      simp
      omega

/-- Witness for C1: one booking type of positive duration; after a
first successful call inserted the 09:00-09:30 booking, the identical
second call receives `SlotConflict`. -/
theorem C1_no_double_booking_witness :
    create_booking [⟨1, 7, 30, 15⟩] [7]
        [{ id := 10, workspace_id := 7, contact_id := 20,
           booking_type_id := 1, start_time := 540, end_time := 570,
           status := BookingStatus.scheduled }] 11 21 1 540
        ⟨some "Bo", some "b@x", none⟩ =
      Except.error CreateBookingError.slotConflict :=
  C1_no_double_booking.2.2 [⟨1, 7, 30, 15⟩] [7] [] 10 11 20 21 1 540
    ⟨some "Ana", some "a@x", none⟩ ⟨some "Bo", some "b@x", none⟩
    [{ id := 10, workspace_id := 7, contact_id := 20,
       booking_type_id := 1, start_time := 540, end_time := 570,
       status := BookingStatus.scheduled }]
    { id := 10, workspace_id := 7, contact_id := 20,
      booking_type_id := 1, start_time := 540, end_time := 570,
      status := BookingStatus.scheduled }
    ⟨1, 7, 30, 15⟩ (by decide) (by decide) (by rfl)

theorem strReplace_of_not_occurs (s pat rep : List Char)
    (h : occursIn pat s = false) : strReplace s pat rep = s := by
  induction s with
  | nil => rw [strReplace]
  | cons c rest ih =>
    rw [occursIn, Bool.or_eq_false_iff] at h
    rw [strReplace, dif_neg, ih h.2]
    intro hc
    rw [h.1] at hc
    exact Bool.noConfusion hc.2

theorem strReplace_self (pat rep : List Char) (h : pat ≠ []) :
    strReplace pat pat rep = rep := by
  match pat with
  | [] => exact absurd rfl h
  | c :: rest =>
    rw [strReplace, dif_pos ⟨h, List.isPrefixOf_iff_prefix.mpr
      (List.prefix_refl _)⟩, List.drop_length, strReplace,
      List.append_nil]

theorem foldl_strReplace_id (l : List (List Char × List Char))
    (text : List Char) (h : ∀ kv ∈ l, occursIn kv.1 text = false) :
    l.foldl (fun acc kv => strReplace acc kv.1 kv.2) text = text := by
  induction l with
  | nil => rfl
  | cons kv rest ih =>
    rw [List.foldl_cons,
      strReplace_of_not_occurs text kv.1 kv.2 (h kv (List.mem_cons_self _ _))]
    exact ih (fun kv' hm => h kv' (List.mem_cons_of_mem kv hm))

theorem foldl_strReplace_pivot (l₁ l₂ : List (List Char × List Char))
    (kv : List Char × List Char) (hne : kv.1 ≠ [])
    (hpre : ∀ kv' ∈ l₁, occursIn kv'.1 kv.1 = false)
    (hpost : ∀ kv' ∈ l₂, occursIn kv'.1 kv.2 = false) :
    (l₁ ++ kv :: l₂).foldl (fun acc p => strReplace acc p.1 p.2) kv.1 =
      kv.2 := by
  induction l₁ with
  | nil =>
    rw [List.nil_append, List.foldl_cons, strReplace_self kv.1 kv.2 hne]
    exact foldl_strReplace_id l₂ kv.2 hpost
  | cons x l₁ ih =>
    rw [List.cons_append, List.foldl_cons,
      strReplace_of_not_occurs kv.1 x.1 x.2 (hpre x (List.mem_cons_self _ _))]
    exact ih (fun kv' hm => hpre kv' (List.mem_cons_of_mem x hm))

theorem replacementsList_shape (d : PyDict)
    (l : List (List Char × List Char)) (h : replacementsList d = some l) :
    ∃ nameV emailV phoneV serviceV dateV timeV itemV,
      l = [(mkPH "name", nameV), (mkPH "email", emailV),
           (mkPH "phone", phoneV), (mkPH "service", serviceV),
           (mkPH "date", dateV), (mkPH "time", timeV),
           (mkPH "item", itemV), (mkPH "quantity", quantityStr d)] := by
  unfold replacementsList at h
  split at h
  · rename_i nameV emailV phoneV serviceV dateV timeV itemV _ _ _ _ _ _ _
    exact ⟨nameV, emailV, phoneV, serviceV, dateV, timeV, itemV,
      (Option.some.inj h).symm⟩
  · exact Option.noConfusion h

/-- C9: placeholder substitution replaces each of the eight
placeholders by literal string replacement with the corresponding
trigger-data field (part 2: a text that is exactly one of the
placeholders becomes exactly the corresponding value, provided the
values themselves contain no placeholder patterns), and leaves any
text containing none of the eight patterns — in particular unknown
placeholders — completely verbatim, never failing (part 1). -/
theorem C9_placeholder_literal_replacement :
    (∀ (text : List Char) (d : PyDict)
        (l : List (List Char × List Char)),
      replacementsList d = some l →
      (∀ kv ∈ l, occursIn kv.1 text = false) →
      replacePlaceholders text d = some text) ∧
    (∀ (d : PyDict) (l : List (List Char × List Char))
        (kv : List Char × List Char),
      replacementsList d = some l → kv ∈ l →
      (∀ kv' ∈ l, occursIn kv'.1 kv.2 = false) →
      replacePlaceholders kv.1 d = some kv.2) := by
  constructor
  · intro text d l hrl hocc
    unfold replacePlaceholders
    rw [hrl]
    exact congrArg some (foldl_strReplace_id l text hocc)
  · intro d l kv hrl hmem hocc
    obtain ⟨nV, eV, pV, sV, dV, tV, iV, rfl⟩ :=
      replacementsList_shape d l hrl
    unfold replacePlaceholders
    rw [hrl]
    simp only [List.mem_cons, List.not_mem_nil, or_false] at hmem
    rcases hmem with rfl | rfl | rfl | rfl | rfl | rfl | rfl | rfl
    · exact congrArg some (foldl_strReplace_pivot []
        [(mkPH "email", eV), (mkPH "phone", pV), (mkPH "service", sV),
         (mkPH "date", dV), (mkPH "time", tV), (mkPH "item", iV),
         (mkPH "quantity", quantityStr d)]
        (mkPH "name", nV) (by dsimp only; decide)
        (by intro kv' hm; exact absurd hm (List.not_mem_nil _))
        (by intro kv' hm
            refine hocc kv' ?_
            simp only [List.mem_cons] at hm ⊢
            tauto))
    · exact congrArg some (foldl_strReplace_pivot
        [(mkPH "name", nV)]
        [(mkPH "phone", pV), (mkPH "service", sV),
         (mkPH "date", dV), (mkPH "time", tV), (mkPH "item", iV),
         (mkPH "quantity", quantityStr d)]
        (mkPH "email", eV) (by dsimp only; decide)
        (by intro kv' hm
            simp only [List.mem_cons, List.not_mem_nil, or_false] at hm
            rcases hm with rfl
            dsimp only
            decide)
        (by intro kv' hm
            refine hocc kv' ?_
            simp only [List.mem_cons] at hm ⊢
            tauto))
    · exact congrArg some (foldl_strReplace_pivot
        [(mkPH "name", nV), (mkPH "email", eV)]
        [(mkPH "service", sV), (mkPH "date", dV), (mkPH "time", tV),
         (mkPH "item", iV), (mkPH "quantity", quantityStr d)]
        (mkPH "phone", pV) (by dsimp only; decide)
        (by intro kv' hm
            simp only [List.mem_cons, List.not_mem_nil, or_false] at hm
            rcases hm with rfl | rfl <;> (dsimp only; decide))
        (by intro kv' hm
            refine hocc kv' ?_
            simp only [List.mem_cons] at hm ⊢
            tauto))
    · exact congrArg some (foldl_strReplace_pivot
        [(mkPH "name", nV), (mkPH "email", eV), (mkPH "phone", pV)]
        [(mkPH "date", dV), (mkPH "time", tV), (mkPH "item", iV),
         (mkPH "quantity", quantityStr d)]
        (mkPH "service", sV) (by dsimp only; decide)
        (by intro kv' hm
            simp only [List.mem_cons, List.not_mem_nil, or_false] at hm
            rcases hm with rfl | rfl | rfl <;> (dsimp only; decide))
        (by intro kv' hm
            refine hocc kv' ?_
            simp only [List.mem_cons] at hm ⊢
            tauto))
    · exact congrArg some (foldl_strReplace_pivot
        [(mkPH "name", nV), (mkPH "email", eV), (mkPH "phone", pV),
         (mkPH "service", sV)]
        [(mkPH "time", tV), (mkPH "item", iV),
         (mkPH "quantity", quantityStr d)]
        (mkPH "date", dV) (by dsimp only; decide)
        (by intro kv' hm
            simp only [List.mem_cons, List.not_mem_nil, or_false] at hm
            rcases hm with rfl | rfl | rfl | rfl <;> (dsimp only; decide))
        (by intro kv' hm
            refine hocc kv' ?_
            simp only [List.mem_cons] at hm ⊢
            tauto))
    · exact congrArg some (foldl_strReplace_pivot
        [(mkPH "name", nV), (mkPH "email", eV), (mkPH "phone", pV),
         (mkPH "service", sV), (mkPH "date", dV)]
        [(mkPH "item", iV), (mkPH "quantity", quantityStr d)]
        (mkPH "time", tV) (by dsimp only; decide)
        (by intro kv' hm
            simp only [List.mem_cons, List.not_mem_nil, or_false] at hm
            rcases hm with rfl | rfl | rfl | rfl | rfl <;> (dsimp only; decide))
        (by intro kv' hm
            refine hocc kv' ?_
            simp only [List.mem_cons] at hm ⊢
            tauto))
    · exact congrArg some (foldl_strReplace_pivot
        [(mkPH "name", nV), (mkPH "email", eV), (mkPH "phone", pV),
         (mkPH "service", sV), (mkPH "date", dV), (mkPH "time", tV)]
        [(mkPH "quantity", quantityStr d)]
        (mkPH "item", iV) (by dsimp only; decide)
        (by intro kv' hm
            simp only [List.mem_cons, List.not_mem_nil, or_false] at hm
            rcases hm with rfl | rfl | rfl | rfl | rfl | rfl <;> (dsimp only; decide))
        (by intro kv' hm
            refine hocc kv' ?_
            simp only [List.mem_cons] at hm ⊢
            tauto))
    · exact congrArg some (foldl_strReplace_pivot
        [(mkPH "name", nV), (mkPH "email", eV), (mkPH "phone", pV),
         (mkPH "service", sV), (mkPH "date", dV), (mkPH "time", tV),
         (mkPH "item", iV)] []
        (mkPH "quantity", quantityStr d) (by dsimp only; decide)
        (by intro kv' hm
            simp only [List.mem_cons, List.not_mem_nil, or_false] at hm
            rcases hm with rfl | rfl | rfl | rfl | rfl | rfl | rfl <;> (dsimp only; decide))
        (by intro kv' hm; exact absurd hm (List.not_mem_nil _)))

/-- Witness for C9: with `contact_name = "Ana"`, the text
`"{{name}}"` becomes `"Ana"`, and a text made of an unknown
placeholder `"{{foo}}"` is returned verbatim. -/
theorem C9_placeholder_literal_replacement_witness :
    replacePlaceholders (mkPH "foo")
        [("contact_name", TValue.vstr "Ana".toList)] =
      some (mkPH "foo") ∧
    replacePlaceholders (mkPH "name")
        [("contact_name", TValue.vstr "Ana".toList)] =
      some "Ana".toList :=
  ⟨C9_placeholder_literal_replacement.1 (mkPH "foo")
      [("contact_name", TValue.vstr "Ana".toList)]
      [(mkPH "name", "Ana".toList), (mkPH "email", []), (mkPH "phone", []),
       (mkPH "service", []), (mkPH "date", []), (mkPH "time", []),
       (mkPH "item", []), (mkPH "quantity", [])]
      (by decide) (by decide),
   C9_placeholder_literal_replacement.2
      [("contact_name", TValue.vstr "Ana".toList)]
      [(mkPH "name", "Ana".toList), (mkPH "email", []), (mkPH "phone", []),
       (mkPH "service", []), (mkPH "date", []), (mkPH "time", []),
       (mkPH "item", []), (mkPH "quantity", [])]
      (mkPH "name", "Ana".toList)
      (by decide) (by decide) (by decide)⟩

theorem isPausedFor_eq_true (env : AutoEnv) (ws : Nat) (td : PyDict)
    (cid : TValue) (hcid : dictGet td "contact_id" = some cid)
    (htr : truthy cid = true) (hp : (ws, cid) ∈ env.paused) :
    isPausedFor env ws td = true := by
  unfold isPausedFor
  rw [hcid]
  dsimp only
  rw [htr, Bool.true_and]
  exact List.any_eq_true.mpr ⟨(ws, cid), hp, by simp⟩

theorem runRules_paused (env : AutoEnv) (ws : Nat) (et : String)
    (td : PyDict) (r : ARule) (rest : List ARule) :
    runRules env ws et td true (r :: rest) =
      ([{ workspace_id := ws, rule_id := some r.id, event_type := et,
          trigger_data := td, action_type := r.action_type,
          status := "skipped", stopped := true,
          message := some pausedMessage }], []) := by
  rw [runRules, if_pos rfl]

/-- C7: when the trigger contact is in the pause registry for the
workspace and at least one active rule matches, `trigger_automation`
writes exactly one AutomationLog row — status `skipped`, `stopped =
true` — performs zero `send_communication` calls and runs no rule
action. -/
theorem C7_pause_short_circuits (env : AutoEnv) (ws : Nat) (et : String)
    (td : PyDict) (cid : TValue) (r : ARule) (rest : List ARule)
    (hcid : dictGet td "contact_id" = some cid)
    (htr : truthy cid = true) (hp : (ws, cid) ∈ env.paused)
    (hmatch : matchingRules env ws et = r :: rest) :
    triggerAutomation env ws et td =
      ([{ workspace_id := ws, rule_id := some r.id, event_type := et,
          trigger_data := td, action_type := r.action_type,
          status := "skipped", stopped := true,
          message := some pausedMessage }], []) := by
  unfold triggerAutomation
  rw [hmatch, isPausedFor_eq_true env ws td cid hcid htr hp,
    runRules_paused]

/-- Witness for C7: a paused contact and one matching rule produce the
single skipped log row and no sends. -/
theorem C7_pause_short_circuits_witness :
    triggerAutomation envPausedOneRule 1 "booking.created"
        [("contact_id", TValue.vstr "c1".toList),
         ("contact_email", TValue.vstr "a@x".toList)] =
      ([{ workspace_id := 1, rule_id := some 5,
          event_type := "booking.created",
          trigger_data := [("contact_id", TValue.vstr "c1".toList),
            ("contact_email", TValue.vstr "a@x".toList)],
          action_type := "send_email", status := "skipped",
          stopped := true, message := some pausedMessage }], []) :=
  C7_pause_short_circuits envPausedOneRule 1 "booking.created"
    [("contact_id", TValue.vstr "c1".toList),
     ("contact_email", TValue.vstr "a@x".toList)]
    (TValue.vstr "c1".toList) (ruleEmail 5 1 "booking.created") []
    (by decide) (by decide) (by decide) (by decide)

/-- C10: with a paused contact but zero matching active rules,
`trigger_automation` writes no AutomationLog row at all and returns the
empty list — the skipped row exists only inside the per-rule loop — and
when matching rules do exist the single skipped row carries the first
matching rule's id. -/
theorem C10_paused_without_rules_writes_nothing (env : AutoEnv) (ws : Nat)
    (et : String) (td : PyDict)
    (hpaused : isPausedFor env ws td = true) :
    (matchingRules env ws et = [] →
      triggerAutomation env ws et td = ([], [])) ∧
    (∀ r rest, matchingRules env ws et = r :: rest →
      (triggerAutomation env ws et td).1.map (fun l => l.rule_id) =
          [some r.id] ∧
        (triggerAutomation env ws et td).1.map (fun l => l.status) =
          ["skipped"]) := by
  constructor
  · intro hm
    unfold triggerAutomation
    rw [hm, hpaused]
    rfl
  · intro r rest hm
    unfold triggerAutomation
    rw [hm, hpaused, runRules_paused]
    exact ⟨rfl, rfl⟩

/-- C4 counterexample: one active `send_email` rule, trigger data with
no `contact_email` at all — the engine writes a `success` log row (with
no send performed), not the `failed` row the claim requires. -/
theorem C4_missing_recipient_counterexample :
    (triggerAutomation envOneRule 1 "booking.created" []).1.map
        (fun l => l.status) = ["success"] ∧
      (["success"] : List String) ≠ ["failed"] := by
  have hev : triggerAutomation envOneRule 1 "booking.created" [] =
      ([{ workspace_id := 1, rule_id := some 5,
          event_type := "booking.created", trigger_data := [],
          action_type := "send_email", status := "success",
          recipient := none, subject := some [],
          message := some [] }], []) := by
    simp [triggerAutomation, matchingRules, sortByPriority,
      insertByPriority, isPausedFor, dictGet, runRules,
      replacePlaceholders, replacementsList, getStrField, quantityStr,
      strReplace, pyOr, truthyOpt, checkConditions, envOneRule,
      ruleEmail]
  rw [hev]
  exact ⟨rfl, by decide⟩

/-- C4 (amended): for an active matching `send_email` rule whose
`contact_email` is absent (or falsy) in the trigger data, the engine
performs no send for that rule and writes one AutomationLog row with
status `success` (not `failed`; the recipient field falls back to the
raw `contact_phone` value), and continues evaluating the remaining
rules. -/
theorem C4_missing_recipient_success_log (env : AutoEnv) (ws : Nat)
    (et : String) (td : PyDict) (r : ARule) (rest : List ARule)
    (msg subj : List Char)
    (hmatch : matchingRules env ws et = r :: rest)
    (hpause : isPausedFor env ws td = false)
    (hcond : r.conditions = [] ∨ checkConditions r.conditions td = true)
    (hmsg : replacePlaceholders r.message td = some msg)
    (hsubj : replacePlaceholders r.subject td = some subj)
    (haction : r.action_type = "send_email")
    (hnoemail : truthyOpt (dictGet td "contact_email") = false) :
    triggerAutomation env ws et td =
      ({ workspace_id := ws, rule_id := some r.id, event_type := et,
         trigger_data := td, action_type := r.action_type,
         status := "success",
         recipient := pyOr (dictGet td "contact_email")
           (dictGet td "contact_phone"),
         subject := some subj, message := some msg } ::
           (runRules env ws et td false rest).1,
       (runRules env ws et td false rest).2) := by
  unfold triggerAutomation
  rw [hmatch, hpause, runRules]
  rw [if_neg (by exact Bool.false_ne_true)]
  have hguard : ¬ (r.conditions ≠ [] ∧
      ¬ checkConditions r.conditions td = true) := by
    rcases hcond with hc | hc
    · intro hx
      exact hx.1 hc
    · intro hx
      exact hx.2 hc
  rw [if_neg hguard, hmsg, hsubj]
  have hcase1 : ¬ (r.action_type = "send_email" ∧
      truthyOpt (dictGet td "contact_email") = true) := by
    intro hx
    rw [hnoemail] at hx
    exact Bool.noConfusion hx.2
  have hcase2 : ¬ (r.action_type = "send_sms" ∧
      truthyOpt (dictGet td "contact_phone") = true) := by
    intro hx
    rw [haction] at hx
    exact absurd hx.1 (by decide)
  dsimp only
  rw [if_neg hcase1, if_neg hcase2]
  simp

/-- Witness for C4 (amended): the concrete recipient-less email rule
yields the single success row and no sends. -/
theorem C4_missing_recipient_success_log_witness :
    triggerAutomation envOneRule 1 "booking.created" [] =
      ([{ workspace_id := 1, rule_id := some 5,
          event_type := "booking.created", trigger_data := [],
          action_type := "send_email", status := "success",
          recipient := none, subject := some [],
          message := some [] }], []) :=
  C4_missing_recipient_success_log envOneRule 1 "booking.created" []
    (ruleEmail 5 1 "booking.created") [] [] []
    (by decide) (by decide) (Or.inl rfl)
    (by simp [replacePlaceholders, replacementsList, getStrField,
      dictGet, quantityStr, strReplace, ruleEmail])
    (by simp [replacePlaceholders, replacementsList, getStrField,
      dictGet, quantityStr, strReplace, ruleEmail])
    (by decide) (by decide)

/-- Witness for C10: a paused contact, one active rule for a different
event type: no log rows at all. -/
theorem C10_paused_without_rules_writes_nothing_witness :
    triggerAutomation envPausedNoMatch 1 "booking.created"
        [("contact_id", TValue.vstr "c1".toList)] = ([], []) :=
  (C10_paused_without_rules_writes_nothing envPausedNoMatch 1
    "booking.created" [("contact_id", TValue.vstr "c1".toList)]
    (by decide)).1 (by decide)

theorem applyHandler_preserves (now : Int) (e : EventEntry)
    (h : HandlerOutcome) :
    (applyHandler now e h).workspace_id = e.workspace_id ∧
    (applyHandler now e h).event_type = e.event_type ∧
    (applyHandler now e h).entity_type = e.entity_type ∧
    (applyHandler now e h).entity_id = e.entity_id ∧
    (applyHandler now e h).event_data = e.event_data := by
  cases h <;> exact ⟨rfl, rfl, rfl, rfl, rfl⟩

theorem dispatchHandlers_preserves (now : Int) (hs : List HandlerOutcome)
    (e : EventEntry) :
    (dispatchHandlers now e hs).workspace_id = e.workspace_id ∧
    (dispatchHandlers now e hs).event_type = e.event_type ∧
    (dispatchHandlers now e hs).entity_type = e.entity_type ∧
    (dispatchHandlers now e hs).entity_id = e.entity_id ∧
    (dispatchHandlers now e hs).event_data = e.event_data := by
  induction hs generalizing e with
  | nil => exact ⟨rfl, rfl, rfl, rfl, rfl⟩
  | cons h rest ih =>
    have hstep := applyHandler_preserves now e h
    have htail := ih (applyHandler now e h)
    unfold dispatchHandlers at htail ⊢
    rw [List.foldl_cons]
    exact ⟨htail.1.trans hstep.1, htail.2.1.trans hstep.2.1,
      htail.2.2.1.trans hstep.2.2.1, htail.2.2.2.1.trans hstep.2.2.2.1,
      htail.2.2.2.2.trans hstep.2.2.2.2⟩

theorem buildTriggerData_dispatchHandlers (now : Int)
    (hs : List HandlerOutcome) (e : EventEntry) :
    buildTriggerData (dispatchHandlers now e hs) = buildTriggerData e := by
  have hp := dispatchHandlers_preserves now hs e
  unfold buildTriggerData
  rw [hp.2.1, hp.2.2.1, hp.2.2.2.1, hp.2.2.2.2]

theorem dispatchHandlers_status_getLast (now : Int)
    (hs : List HandlerOutcome) (e : EventEntry) (hlast : HandlerOutcome)
    (h : hs.getLast? = some hlast) :
    (dispatchHandlers now e hs).status = handlerStatus hlast := by
  induction hs generalizing e with
  | nil => exact Option.noConfusion h
  | cons h0 rest ih =>
    cases rest with
    | nil =>
      rw [List.getLast?_singleton] at h
      rw [← Option.some.inj h]
      cases h0 <;> rfl
    | cons h1 t =>
      rw [List.getLast?_cons_cons] at h
      unfold dispatchHandlers
      rw [List.foldl_cons]
      exact ih (applyHandler now e h0) h

/-- C2 counterexample: with two handlers where the first raises and the
second succeeds, the entry ends `processed` even though a handler
raised — the status reflects only the last handler, not "processed iff
all handlers succeeded". -/
theorem C2_status_counterexample :
    (dispatchEvent envNoRules 0 [Except.error "boom", Except.ok ()]
        entryBooking).1.status = EStatus.processed ∧
    Except.error "boom" ∈
      ([Except.error "boom", Except.ok ()] : List HandlerOutcome) :=
  ⟨rfl, by simp⟩

/-- C2 (amended): after `dispatch_event`, the automation rule
evaluation always runs and its result does not depend on the handler
outcomes (handlers only touch status/error/processed_at); the entry
status is unchanged (still `pending`) when no handler is registered,
and otherwise is `processed`/`failed` according to the LAST registered
handler alone. -/
theorem C2_dispatch_last_handler_wins (env : AutoEnv) (now : Int)
    (hs : List HandlerOutcome) (e : EventEntry) :
    (dispatchEvent env now hs e).2 =
      triggerAutomation env e.workspace_id e.event_type
        (buildTriggerData e) ∧
    (hs = [] → (dispatchEvent env now hs e).1.status = e.status) ∧
    (∀ hlast, hs.getLast? = some hlast →
      (dispatchEvent env now hs e).1.status = handlerStatus hlast) := by
  have hp := dispatchHandlers_preserves now hs e
  refine ⟨?_, ?_, ?_⟩
  · unfold dispatchEvent
    dsimp only
    rw [hp.1, hp.2.1, buildTriggerData_dispatchHandlers]
  · intro h
    rw [h]
    rfl
  · intro hlast h
    exact dispatchHandlers_status_getLast now hs e hlast h

/-- Witness for C2 (amended): one failing handler then one succeeding
handler on the booking entry — automation output equals the plain
trigger evaluation, and the final status is that of the last handler
(`processed`). -/
theorem C2_dispatch_last_handler_wins_witness :
    (dispatchEvent envNoRules 0 [Except.error "boom", Except.ok ()]
        entryBooking).2 =
      triggerAutomation envNoRules entryBooking.workspace_id
        entryBooking.event_type (buildTriggerData entryBooking) ∧
    (dispatchEvent envNoRules 0 [Except.error "boom", Except.ok ()]
        entryBooking).1.status = EStatus.processed :=
  ⟨(C2_dispatch_last_handler_wins envNoRules 0
      [Except.error "boom", Except.ok ()] entryBooking).1,
   (C2_dispatch_last_handler_wins envNoRules 0
      [Except.error "boom", Except.ok ()] entryBooking).2.2
      (Except.ok ()) (by rfl)⟩

/-- C3 counterexample: dispatching the same entry twice against one
matching rule appends a second, duplicate AutomationLog row (the first
dispatch already produced one); and within a single dispatch the status
transitions twice — the prefix `[ok]` leaves it `processed` while the
full handler list `[ok, error]` leaves it `failed`, a
processed→failed transition after pending→processed. -/
theorem C3_redispatch_counterexample :
    (dispatchEvent envOneRule 0 [] entryBooking).2.1.length = 1 ∧
    (dispatchEvent envOneRule 0 []
        (dispatchEvent envOneRule 0 [] entryBooking).1).2.1.length = 1 ∧
    (dispatchHandlers 0 entryBooking [Except.ok ()]).status =
      EStatus.processed ∧
    (dispatchHandlers 0 entryBooking
        [Except.ok (), Except.error "x"]).status = EStatus.failed := by
  refine ⟨?_, ?_, rfl, rfl⟩ <;>
    simp [dispatchEvent, dispatchHandlers, triggerAutomation,
      matchingRules, sortByPriority, insertByPriority, isPausedFor,
      dictGet, runRules, replacePlaceholders, replacementsList,
      getStrField, quantityStr, strReplace, pyOr, truthyOpt, truthy,
      checkConditions, envOneRule, ruleEmail, entryBooking,
      buildTriggerData, dictSet, pyStrOfOptNat]

/-- C3 (amended): `dispatch_event` has no idempotence guard: the entry
status and the automation evaluation are recomputed on every dispatch,
so a second dispatch of the same entry produces exactly the same
AutomationLog rows (and sends) over again instead of none. -/
theorem C3_redispatch_reruns_automation (env : AutoEnv) (now : Int)
    (hs : List HandlerOutcome) (e : EventEntry) :
    (dispatchEvent env now hs (dispatchEvent env now hs e).1).2 =
      (dispatchEvent env now hs e).2 := by
  have h1 := dispatchHandlers_preserves now hs e
  have h2 := dispatchHandlers_preserves now hs (dispatchHandlers now e hs)
  unfold dispatchEvent
  dsimp only
  rw [h2.1, h1.1, h2.2.1, h1.2.1, buildTriggerData_dispatchHandlers,
    buildTriggerData_dispatchHandlers]

/-- C8 counterexample: with a provider failing on every attempt, the
sleeps actually performed are 1s then 2s — the 4s entry of
`RETRY_DELAYS` is unreachable, because at most two backoff sleeps can
happen between three attempts. -/
theorem C8_delay_counterexample :
    (sendEmailWithRetry (fun _ => AttemptResult.raised "boom")).delays =
        [1, 2] ∧
      ([1, 2] : List Nat) ≠ [1, 2, 4] ∧ RETRY_DELAYS = [1, 2, 4] :=
  ⟨rfl, by decide, rfl⟩

/-- C8 (amended): delivery is attempted at most 3 times; success on any
attempt short-circuits the rest and yields status `sent`; when every
attempt fails only the last attempt's error is surfaced; the backoff
sleeps between attempts are 1s then 2s (taken from the schedule
`[1, 2, 4]` whose third entry is unreachable); and `send_communication`
writes exactly one CommunicationLog row per call, whatever happens. -/
theorem C8_retry_semantics (o : Nat → AttemptResult) :
    (sendEmailWithRetry o).attempts ≤ 3 ∧
    ((sendEmailWithRetry o).status = "sent" ↔
      o 0 = AttemptResult.sent ∨ o 1 = AttemptResult.sent ∨
        o 2 = AttemptResult.sent) ∧
    ((o 0 ≠ AttemptResult.sent ∧ o 1 ≠ AttemptResult.sent ∧
        o 2 ≠ AttemptResult.sent) →
      (sendEmailWithRetry o).status = "failed" ∧
        (sendEmailWithRetry o).last_error = attemptError (o 2)) ∧
    (∀ m0 m1, o 0 = AttemptResult.raised m0 →
      o 1 = AttemptResult.raised m1 →
      (sendEmailWithRetry o).delays = [1, 2]) ∧
    (∀ (so : Nat → Option String) (ws : Nat) (ch recipient : String)
        (subj : Option String) (msg : String) (sbs au : Bool),
      (sendCommunication o so ws ch recipient subj msg sbs au).2.length =
        1) := by
  have hr : sendEmailWithRetry o = runAttempts o [0, 1, 2] none := rfl
  refine ⟨?_, ?_, ?_, ?_, ?_⟩
  · rw [hr]
    cases h0 : o 0 <;> cases h1 : o 1 <;> cases h2 : o 2 <;>
      simp [runAttempts, h0, h1, h2, MAX_RETRIES, RETRY_DELAYS]
  · rw [hr]
    cases h0 : o 0 <;> cases h1 : o 1 <;> cases h2 : o 2 <;>
      simp [runAttempts, h0, h1, h2, MAX_RETRIES, RETRY_DELAYS]
  · rw [hr]
    cases h0 : o 0 <;> cases h1 : o 1 <;> cases h2 : o 2 <;>
      simp [runAttempts, h0, h1, h2, MAX_RETRIES, RETRY_DELAYS,
        attemptError]
  · intro m0 m1 h0 h1
    rw [hr]
    cases h2 : o 2 <;>
      simp [runAttempts, h0, h1, h2, MAX_RETRIES, RETRY_DELAYS]
  · intro so ws ch recipient subj msg sbs au
    unfold sendCommunication
    dsimp only
    repeat' split
    all_goals rfl

/-- Witness for C8 (amended): the fails-twice-then-succeeds provider
ends with status `sent`, and its `send_communication` call writes
exactly one log row. -/
theorem C8_retry_semantics_witness :
    (sendEmailWithRetry twoFailsThenSent).status = "sent" ∧
    (sendCommunication twoFailsThenSent (fun _ => none) 1 "email"
        "a@x" none "hi" false false).2.length = 1 :=
  ⟨((C8_retry_semantics twoFailsThenSent).2.1).mpr
      (Or.inr (Or.inr (by decide))),
   (C8_retry_semantics twoFailsThenSent).2.2.2.2 (fun _ => none) 1
      "email" "a@x" none "hi" false false⟩

end CareOps
